import Mathlib

/-!
Shallow embedding of `src/library-manager.py`, a Streamlit personal library
manager.  Book records model the dictionaries built by `add_book`; Python
strings are Lean `String`s, `str.lower` is mapped over the character data,
and Python string comparison (code-point lexicographic) is the
lexicographic order on `List Char`.  `datetime.now()` is passed in as an
explicit timestamp argument.
-/

namespace LibraryManager

/-- A book record, modelling the dictionary built by `add_book`
(`src/library-manager.py`, lines 35-42), with keys `title`, `author`,
`year`, `genre`, `read_status`, `added_date`. -/
structure Book where
  title : String
  author : String
  year : Nat
  genre : String
  read_status : Bool
  added_date : String
  deriving DecidableEq

/-- Python `str.lower`, applied character by character. -/
def pyLower (s : String) : String :=
  String.mk (s.data.map Char.toLower)

/-- The dictionary literal built by `add_book` (lines 35-42); the
`datetime.now().strftime(...)` timestamp is the `now` argument. -/
def new_book (title author : String) (year : Nat) (genre : String)
    (read_status : Bool) (now : String) : Book :=
  { title := title, author := author, year := year, genre := genre,
    read_status := read_status, added_date := now }

/-- `add_book` (lines 33-44): appends the new record to the session library. -/
def add_book (title author : String) (year : Nat) (genre : String)
    (read_status : Bool) (now : String) (library : List Book) : List Book :=
  library ++ [new_book title author year genre read_status now]

/-- Python truthiness of a string: `if title` takes the true branch iff the
string is non-empty. -/
def pyTruthyStr (s : String) : Bool := s != ""

/-- Python truthiness of an integer: `if year` takes the true branch iff the
number is nonzero. -/
def pyTruthyNat (n : Nat) : Bool := n != 0

/-- The Add-a-Book form handler (lines 110-114): the record is added only
when `title and author and year` is truthy; otherwise the library is left
unchanged and the warning branch runs.  Returns the new library and whether
the book was added. -/
def addBookForm (title author : String) (year : Nat) (genre : String)
    (read_status : Bool) (now : String) (library : List Book) :
    List Book × Bool :=
  if pyTruthyStr title && pyTruthyStr author && pyTruthyNat year then
    (add_book title author year genre read_status now library, true)
  else
    (library, false)

/-- The match test of `remove_book` (line 50):
`book['title'].lower() == title.lower()`. -/
def titleMatches (title : String) (b : Book) : Bool :=
  pyLower b.title == pyLower title

/-- `remove_book` (lines 46-58): pops the first record whose title matches
case-insensitively and breaks out of the loop; returns the new library and
whether a record was removed (success vs the not-found warning). -/
def remove_book (title : String) : List Book → List Book × Bool
  | [] => ([], false)
  | b :: rest =>
    if titleMatches title b then (rest, true)
    else
      let r := remove_book title rest
      (b :: r.1, r.2)

/-- The radio choices of the search page (line 128). -/
inductive SearchField
  | title
  | author
  | genre
  deriving DecidableEq

/-- The dictionary access `book[search_by]` for the three search fields. -/
def fieldOf : SearchField → Book → String
  | .title, b => b.title
  | .author, b => b.author
  | .genre, b => b.genre

/-- Python substring test `p in s`, on lists of characters. -/
def subList (p : List Char) : List Char → Bool
  | [] => p.isEmpty
  | c :: rest => p.isPrefixOf (c :: rest) || subList p rest

/-- The membership test of `search_books` (line 64):
`search_term.lower() in book[search_by].lower()`. -/
def searchHit (term : String) (f : SearchField) (b : Book) : Bool :=
  subList (pyLower term).data (pyLower (fieldOf f b)).data

/-- `search_books` (lines 60-66): the loop appends, in library order, every
record whose chosen field contains the search term case-insensitively. -/
def search_books (term : String) (f : SearchField) : List Book → List Book
  | [] => []
  | b :: rest =>
    if searchHit term f b then b :: search_books term f rest
    else search_books term f rest

/-- The statistics dictionary of `calculate_statistics` (lines 73-78); the
Python float `read_percentage` is modelled as a rational number. -/
structure LibStats where
  total_books : Nat
  read_books : Nat
  unread_books : Nat
  read_percentage : ℚ
  deriving DecidableEq

/-- `calculate_statistics` (lines 68-79). -/
def calculate_statistics (library : List Book) : LibStats :=
  let total_books := library.length
  let read_books := List.countP (fun b => b.read_status) library
  { total_books := total_books
    read_books := read_books
    unread_books := total_books - read_books
    read_percentage :=
      if total_books > 0 then (read_books : ℚ) / (total_books : ℚ) * 100
      else 0 }

/-- Ascending comparison by a sort key: the relation Python's stable
`list.sort(key=k)` sorts by when `reverse=False`. -/
def keyLe {α κ : Type} [LinearOrder κ] (key : α → κ) (a b : α) : Prop :=
  key a ≤ key b

/-- Descending comparison by a sort key, as `list.sort(key=k, reverse=True)`:
comparisons are reversed but ties are still kept in original order, so the
relation is the reflexive `key b ≤ key a`. -/
def keyGe {α κ : Type} [LinearOrder κ] (key : α → κ) (a b : α) : Prop :=
  key b ≤ key a

instance {α κ : Type} [LinearOrder κ] (key : α → κ) : DecidableRel (keyLe key) :=
  fun a b => inferInstanceAs (Decidable (key a ≤ key b))

instance {α κ : Type} [LinearOrder κ] (key : α → κ) : DecidableRel (keyGe key) :=
  fun a b => inferInstanceAs (Decidable (key b ≤ key a))

instance {α κ : Type} [LinearOrder κ] (key : α → κ) : IsTotal α (keyLe key) :=
  ⟨fun a b => le_total (key a) (key b)⟩

instance {α κ : Type} [LinearOrder κ] (key : α → κ) : IsTrans α (keyLe key) :=
  ⟨fun _ _ _ h h' => le_trans h h'⟩

instance {α κ : Type} [LinearOrder κ] (key : α → κ) : IsTotal α (keyGe key) :=
  ⟨fun a b => le_total (key b) (key a)⟩

instance {α κ : Type} [LinearOrder κ] (key : α → κ) : IsTrans α (keyGe key) :=
  ⟨fun _ _ _ h h' => le_trans h' h⟩

/-- Python `list.sort(key, reverse)`: a stable comparison sort, ascending by
the key when `reverse=False` and descending (ties in original order) when
`reverse=True`.  Modelled by insertion sort, which is stable. -/
def pySort {α κ : Type} [LinearOrder κ] (key : α → κ) (reverse : Bool)
    (l : List α) : List α :=
  if reverse then List.insertionSort (keyGe key) l
  else List.insertionSort (keyLe key) l

/-- Sort key of the Recently-Added branch (line 155): the raw `added_date`
string, compared as Python compares strings (code-point lexicographic). -/
def addedDateKey (b : Book) : List Char := b.added_date.data

/-- Sort key of the Title branch (line 157): `x['title'].lower()`. -/
def titleKey (b : Book) : List Char := (pyLower b.title).data

/-- Sort key of the Author branch (line 159): `x['author'].lower()`. -/
def authorKey (b : Book) : List Char := (pyLower b.author).data

/-- Sort key of the Year branch (line 161): `x['year']`. -/
def yearKey (b : Book) : Nat := b.year

/-- The options of the View-All-Books sort selectbox (line 148). -/
inductive SortChoice
  | recentlyAdded
  | title
  | author
  | year
  deriving DecidableEq

/-- The View-All-Books display sort (lines 152-161).  Note the
Recently-Added branch passes `reverse=not reverse_sort` while the other
three branches pass `reverse=reverse_sort`. -/
def viewAllSorted (sort_by : SortChoice) (reverse_sort : Bool)
    (library : List Book) : List Book :=
  match sort_by with
  | .recentlyAdded => pySort addedDateKey (!reverse_sort) library
  | .title => pySort titleKey reverse_sort library
  | .author => pySort authorKey reverse_sort library
  | .year => pySort yearKey reverse_sort library

/-- The View-All-Books branch as a state transformer: the session library
after the branch runs, together with the displayed sequence
(`sorted_library`).  The branch copies the library (line 152) and sorts the
copy in place; the session list itself is never assigned. -/
def viewAllBooks (sort_by : SortChoice) (reverse_sort : Bool)
    (library : List Book) : List Book × List Book :=
  (library, viewAllSorted sort_by reverse_sort library)

/-- A JSON value, as handled by Python's `json` module; numbers are
restricted to the integers this program produces. -/
inductive Json
  | null
  | bool (b : Bool)
  | num (n : Int)
  | str (s : String)
  | arr (elements : List Json)
  | obj (fields : List (String × Json))

/-- Content of a file on disk, abstracted by the contract of `json.load` /
`json.dump`: either text that is well-formed JSON with a given parse, or
text that is not well-formed JSON, on which `json.load` raises. -/
inductive FileContent
  | jsonText (j : Json)
  | malformed

/-- The persistence-facing session state: the raw session library value
(`st.session_state.library`, which `load_library_from_file` assigns
wholesale from `json.load` on line 25 with no shape validation), and the
file system as a map from filenames to contents. -/
structure PState where
  library : Json
  files : String → Option FileContent

/-- `save_library_to_file` (lines 11-18): `json.dump` writes a well-formed
serialization of the session library to the named file, overwriting any
previous content.  Operating-system write failures are outside the model. -/
def save_library_to_file (filename : String) (s : PState) : PState :=
  { s with
    files := fun n =>
      if n = filename then some (FileContent.jsonText s.library)
      else s.files n }

/-- The user-visible outcome of `load_library_from_file`: the success
message, the no-saved-library warning, or the caught-exception error. -/
inductive LoadOutcome
  | success
  | notFound
  | parseError
  deriving DecidableEq

/-- `load_library_from_file` (lines 20-30): if the file is missing, warn and
keep the library; if `json.load` raises, the assignment on line 25 never
runs and the handler reports the error; otherwise the library is replaced
wholesale by the parsed value, whatever its shape. -/
def load_library_from_file (filename : String) (s : PState) :
    PState × LoadOutcome :=
  match s.files filename with
  | none => (s, LoadOutcome.notFound)
  | some FileContent.malformed => (s, LoadOutcome.parseError)
  | some (FileContent.jsonText j) => ({ s with library := j }, LoadOutcome.success)

/-- Lookup among a JSON object's fields, as Python dict subscription. -/
def lookupField (key : String) : List (String × Json) → Option Json
  | [] => none
  | kv :: rest => if kv.1 = key then some kv.2 else lookupField key rest

/-- Python subscription `book[search_by]`: it succeeds only when the value
is a dict containing the key; on anything else the interpreter raises
(TypeError / KeyError). -/
def jsonGet (b : Json) (key : String) : Option Json :=
  match b with
  | Json.obj fields => lookupField key fields
  | _ => none

/-- Python method access `.lower()`: only strings have it; on any other
value the access raises AttributeError. -/
def jsonAsStr : Json → Option String
  | Json.str s => some s
  | _ => none

/-- The `search_books` loop (lines 60-66) run over the raw session store as
`load` leaves it: each iteration evaluates `book[search_by].lower()` and
faults (`none`) on a record that is not a dict holding a string at the
searched key. -/
def search_books_raw (term : String) (search_by : String) :
    List Json → Option (List Json)
  | [] => some []
  | b :: rest => do
    let v ← jsonGet b search_by
    let s ← jsonAsStr v
    let tail ← search_books_raw term search_by rest
    if subList (pyLower term).data (pyLower s).data then
      return b :: tail
    else
      return tail

/-- The Dune record of the spec's concrete scenario (spec §8), with a
creation timestamp. -/
def duneB : Book :=
  new_book "Dune" "Frank Herbert" 1965 "Science Fiction" false
    "2024-01-01 10:00:00"

/-- The Emma record of the spec's concrete scenario (spec §8), added after
Dune. -/
def emmaB : Book :=
  new_book "Emma" "Jane Austen" 1815 "Romance" true "2024-01-01 11:00:00"

/-- A session whose `library.json` holds the well-formed JSON text `5`,
which is not an array of record-shaped objects. -/
def numberFile : PState :=
  { library := Json.arr []
    files := fun n =>
      if n = "library.json" then some (FileContent.jsonText (Json.num 5))
      else none }

/-- A session whose `library.json` holds the well-formed JSON text `[5]`:
an array whose single element is not a record-shaped object. -/
def arrayFile : PState :=
  { library := Json.arr []
    files := fun n =>
      if n = "library.json" then
        some (FileContent.jsonText (Json.arr [Json.num 5]))
      else none }

/-- A session whose `library.json` holds text that is not well-formed
JSON. -/
def malformedFile : PState :=
  { library := Json.arr []
    files := fun n =>
      if n = "library.json" then some FileContent.malformed
      else none }

/-- The displayed sequence is always a permutation of the library. -/
theorem pySort_perm {α κ : Type} [LinearOrder κ] (key : α → κ)
    (reverse : Bool) (l : List α) : (pySort key reverse l).Perm l := by
  unfold pySort
  split <;> exact List.perm_insertionSort _ _

/-- With `reverse=False`, `pySort` is ascending by the key. -/
theorem pySort_sorted_asc {α κ : Type} [LinearOrder κ] (key : α → κ)
    (l : List α) : List.Sorted (keyLe key) (pySort key false l) := by
  simpa [pySort] using List.sorted_insertionSort (keyLe key) l

/-- With `reverse=True`, `pySort` is descending by the key. -/
theorem pySort_sorted_desc {α κ : Type} [LinearOrder κ] (key : α → κ)
    (l : List α) : List.Sorted (keyGe key) (pySort key true l) := by
  simpa [pySort] using List.sorted_insertionSort (keyGe key) l

/-- Stability of insertion sort, filter form: for a relation that holds on
all key-ties, the elements with any fixed key value appear in the output in
their original relative order. -/
theorem insertionSort_filter_key {α κ : Type} [DecidableEq κ]
    (r : α → α → Prop) [DecidableRel r] (key : α → κ)
    (hr : ∀ a b, key a = key b → r a b) (l : List α) (k : κ) :
    (List.insertionSort r l).filter (fun a => decide (key a = k)) =
      l.filter (fun a => decide (key a = k)) := by
  have hself : (l.filter (fun a => decide (key a = k))).filter
      (fun a => decide (key a = k)) = l.filter (fun a => decide (key a = k)) :=
    List.filter_eq_self.mpr (fun a ha => (List.mem_filter.mp ha).2)
  have hpair : (l.filter (fun a => decide (key a = k))).Pairwise r := by
    refine List.pairwise_of_forall_mem_list (fun a ha b hb => ?_)
    have hak : key a = k := by simpa using (List.mem_filter.mp ha).2
    have hbk : key b = k := by simpa using (List.mem_filter.mp hb).2
    exact hr a b (hak.trans hbk.symm)
  have hsub : List.Sublist (l.filter (fun a => decide (key a = k)))
      (List.insertionSort r l) :=
    List.sublist_insertionSort hpair (List.filter_sublist l)
  have hsub2 := hsub.filter (fun a => decide (key a = k))
  rw [hself] at hsub2
  have hlen : ((List.insertionSort r l).filter
      (fun a => decide (key a = k))).length =
      (l.filter (fun a => decide (key a = k))).length :=
    ((List.perm_insertionSort r l).filter _).length_eq
  exact (hsub2.eq_of_length hlen.symm).symm

/-- Stability of `pySort` in both toggle directions. -/
theorem pySort_filter_key {α κ : Type} [LinearOrder κ] [DecidableEq κ]
    (key : α → κ)
    (reverse : Bool) (l : List α) (k : κ) :
    (pySort key reverse l).filter (fun a => decide (key a = k)) =
      l.filter (fun a => decide (key a = k)) := by
  unfold pySort
  split
  · exact insertionSort_filter_key (keyGe key) key
      (fun a b h => le_of_eq h.symm) l k
  · exact insertionSort_filter_key (keyLe key) key
      (fun a b h => le_of_eq h) l k

/-- C1: performing save(filename) and then immediately load(filename) with
no intervening mutation yields a store equal to the pre-save store
field-for-field and in the same order, and the load reports success. -/
theorem save_then_load_round_trip (filename : String) (s : PState) :
    (load_library_from_file filename (save_library_to_file filename s)).1.library
      = s.library
    ∧ (load_library_from_file filename (save_library_to_file filename s)).2
      = LoadOutcome.success := by
  simp [save_library_to_file, load_library_from_file]

/-- C2 counterexample: loading an existing file whose content is well-formed
JSON but not an array of record-shaped objects (the text `5`) is not
reported as a ParseFailure, and it does not leave the store untouched. -/
theorem load_nonarray_replaces_store :
    (load_library_from_file "library.json" numberFile).2 ≠ LoadOutcome.parseError
    ∧ (load_library_from_file "library.json" numberFile).1.library
      ≠ numberFile.library := by
  constructor
  · decide
  · have h1 : (load_library_from_file "library.json" numberFile).1.library
      = Json.num 5 := rfl
    have h2 : numberFile.library = Json.arr [] := rfl
    rw [h1, h2]
    exact fun h => Json.noConfusion h

/-- C2 (amended): for an existing file whose content is not well-formed
JSON, load reports a ParseFailure and leaves the store exactly as it was;
well-formed JSON of any shape replaces the store wholesale with the parsed
value (no shape validation), and a missing file only warns. -/
theorem load_all_or_nothing (filename : String) (s : PState) :
    (s.files filename = some FileContent.malformed →
      load_library_from_file filename s = (s, LoadOutcome.parseError))
    ∧ (∀ j : Json, s.files filename = some (FileContent.jsonText j) →
      load_library_from_file filename s =
        ({ s with library := j }, LoadOutcome.success))
    ∧ (s.files filename = none →
      load_library_from_file filename s = (s, LoadOutcome.notFound)) := by
  refine ⟨fun h => ?_, fun j h => ?_, fun h => ?_⟩ <;>
    simp [load_library_from_file, h]

/-- Witness for the amended C2 at a concrete malformed file. -/
theorem load_all_or_nothing_witness :
    load_library_from_file "library.json" malformedFile =
      (malformedFile, LoadOutcome.parseError) :=
  (load_all_or_nothing "library.json" malformedFile).1 rfl

/-- C10: load performs no shape validation, so a session store holding a
non-record is reachable from a load, and search faults on it (the
subscription or `.lower()` raises); under the precondition that every
record is a dict holding a string at the searched key, search instead
returns a result. -/
theorem search_faults_on_unvalidated_load :
    (load_library_from_file "library.json" arrayFile).1.library
      = Json.arr [Json.num 5]
    ∧ search_books_raw "dune" "title" [Json.num 5] = none
    ∧ ∀ (term search_by : String) (store : List Json),
        (∀ b ∈ store, ∃ s : String,
          (jsonGet b search_by).bind jsonAsStr = some s) →
        (search_books_raw term search_by store).isSome = true := by
  refine ⟨rfl, rfl, ?_⟩
  intro term sb store h
  induction store with
  | nil => simp [search_books_raw]
  | cons b rest ih =>
    obtain ⟨s, hs⟩ := h b (by simp)
    obtain ⟨v, hv, hsv⟩ := Option.bind_eq_some.mp hs
    have ht := ih (fun x hx => h x (by simp [hx]))
    obtain ⟨tail, htail⟩ := Option.isSome_iff_exists.mp ht
    by_cases hc : subList (pyLower term).data (pyLower s).data
    · simp [search_books_raw, hv, hsv, htail, hc]
    · simp [search_books_raw, hv, hsv, htail, hc]

/-- Witness for C10's totality part at a concrete well-shaped store. -/
theorem search_faults_on_unvalidated_load_witness :
    (search_books_raw "a" "title"
      [Json.obj [("title", Json.str "Dune")]]).isSome = true :=
  search_faults_on_unvalidated_load.2.2 "a" "title"
    [Json.obj [("title", Json.str "Dune")]]
    (fun b hb => by
      have hb1 : b = Json.obj [("title", Json.str "Dune")] := by
        simpa using hb
      subst hb1
      exact ⟨"Dune", rfl⟩)

/-- C3 counterexample: with the reverse toggle OFF, the Recently-Added view
shows a two-record store in descending, not ascending, `added_date`
order. -/
theorem recentlyAdded_toggle_off_is_descending :
    viewAllSorted SortChoice.recentlyAdded false [duneB, emmaB] = [emmaB, duneB]
    ∧ ¬ List.Sorted (keyLe addedDateKey)
        (viewAllSorted SortChoice.recentlyAdded false [duneB, emmaB]) := by
  constructor
  · decide
  · decide

/-- C3 (amended): the Recently-Added view is descending by `added_date` when
the reverse toggle is OFF and ascending when it is ON, and in both cases the
displayed sequence is a permutation of the store. -/
theorem recentlyAdded_polarity (library : List Book) :
    List.Sorted (keyGe addedDateKey)
      (viewAllSorted SortChoice.recentlyAdded false library)
    ∧ List.Sorted (keyLe addedDateKey)
      (viewAllSorted SortChoice.recentlyAdded true library)
    ∧ (viewAllSorted SortChoice.recentlyAdded false library).Perm library
    ∧ (viewAllSorted SortChoice.recentlyAdded true library).Perm library := by
  refine ⟨?_, ?_, ?_, ?_⟩
  · simpa [viewAllSorted] using pySort_sorted_desc addedDateKey library
  · simpa [viewAllSorted] using pySort_sorted_asc addedDateKey library
  · simpa [viewAllSorted] using pySort_perm addedDateKey true library
  · simpa [viewAllSorted] using pySort_perm addedDateKey false library

/-- C4 (code bug): the Add form handler's truthiness test `if title and
author and year` rejects a submission whose year is 0 — even though the
year widget's declared bounds `[0, current_year]` admit 0 — leaving the
store unchanged; the same submission with a nonzero year is appended. -/
theorem addBookForm_rejects_year_zero :
    addBookForm "Dune" "Frank Herbert" 0 "Science Fiction" false
      "2024-01-01 10:00:00" [] = ([], false)
    ∧ addBookForm "Dune" "Frank Herbert" 1965 "Science Fiction" false
      "2024-01-01 10:00:00" [] = ([duneB], true) := by
  constructor
  · decide
  · decide

/-- When no record's title matches case-insensitively, `remove_book` returns
the library unchanged with the not-found flag. -/
theorem remove_book_of_no_match {title : String} :
    ∀ {library : List Book},
      (∀ b ∈ library, titleMatches title b = false) →
      remove_book title library = (library, false) := by
  intro library
  induction library with
  | nil => intro _; rfl
  | cons b rest ih =>
    intro h
    have hb : titleMatches title b = false := h b (by simp)
    have hr := ih (fun x hx => h x (by simp [hx]))
    simp [remove_book, hb, hr]

/-- `remove_book` removes exactly the first case-insensitive title match and
keeps every other record in its original relative order. -/
theorem remove_book_of_first_match {title : String} :
    ∀ (pre : List Book) (b : Book) (post : List Book),
      titleMatches title b = true →
      (∀ x ∈ pre, titleMatches title x = false) →
      remove_book title (pre ++ b :: post) = (pre ++ post, true) := by
  intro pre
  induction pre with
  | nil =>
    intro b post hb _
    simp [remove_book, hb]
  | cons x rest ih =>
    intro b post hb h
    have hx : titleMatches title x = false := h x (by simp)
    have hr := ih b post hb (fun y hy => h y (by simp [hy]))
    simp [remove_book, hx, hr]

/-- C5: remove removes exactly the first record (in store order) whose title
equals the given title case-insensitively, leaving all other records in
their original relative order and reporting success; if no record matches,
the store is returned unchanged and not-found is reported. -/
theorem remove_book_spec (title : String) (library : List Book) :
    ((∀ b ∈ library, titleMatches title b = false) →
      remove_book title library = (library, false))
    ∧ (∀ (pre : List Book) (b : Book) (post : List Book),
        library = pre ++ b :: post →
        titleMatches title b = true →
        (∀ x ∈ pre, titleMatches title x = false) →
        remove_book title library = (pre ++ post, true)) :=
  ⟨remove_book_of_no_match,
   fun pre b post hsplit hb h => by
     subst hsplit
     exact remove_book_of_first_match pre b post hb h⟩

/-- Witness for C5 at the spec's scenario: removing "dune" (different input
case) from [Emma, Dune] removes exactly the Dune record. -/
theorem remove_book_spec_witness :
    remove_book "dune" [emmaB, duneB] = ([emmaB], true) := by
  have h := (remove_book_spec "dune" [emmaB, duneB]).2 [emmaB] duneB []
    rfl (by decide) (by decide)
  simpa using h

/-- `List.isPrefixOf` decides the prefix decomposition. -/
theorem isPrefixOf_iff_exists {p s : List Char} :
    p.isPrefixOf s = true ↔ ∃ post : List Char, s = p ++ post := by
  induction p generalizing s with
  | nil => simp [List.isPrefixOf]
  | cons c p ih =>
    cases s with
    | nil => simp [List.isPrefixOf]
    | cons d s =>
      simp only [List.isPrefixOf, Bool.and_eq_true, beq_iff_eq]
      constructor
      · rintro ⟨hcd, hp⟩
        obtain ⟨post, hpost⟩ := ih.mp hp
        exact ⟨post, by simp [hcd, hpost]⟩
      · rintro ⟨post, hpost⟩
        rw [List.cons_append] at hpost
        injection hpost with h1 h2
        exact ⟨h1.symm, ih.mpr ⟨post, h2⟩⟩

/-- Python's substring test on character lists: `subList p s` holds exactly
when `p` occurs contiguously inside `s`. -/
theorem subList_iff_exists {p s : List Char} :
    subList p s = true ↔ ∃ pre post : List Char, s = pre ++ p ++ post := by
  induction s with
  | nil =>
    simp only [subList, List.isEmpty_iff]
    constructor
    · rintro rfl
      exact ⟨[], [], rfl⟩
    · rintro ⟨pre, post, h⟩
      have h' := h.symm
      simp only [List.append_eq_nil] at h'
      exact h'.1.2
  | cons c t ih =>
    simp only [subList, Bool.or_eq_true, ih, isPrefixOf_iff_exists]
    constructor
    · rintro (⟨post, hpost⟩ | ⟨pre, post, h⟩)
      · exact ⟨[], post, by simpa using hpost⟩
      · exact ⟨c :: pre, post, by simp [h]⟩
    · rintro ⟨pre, post, h⟩
      cases pre with
      | nil =>
        left
        exact ⟨post, by simpa using h⟩
      | cons x pre =>
        right
        rw [List.cons_append, List.cons_append] at h
        injection h with h1 h2
        exact ⟨pre, post, by simpa using h2⟩

/-- The empty needle is a substring of everything. -/
theorem subList_nil_left (s : List Char) : subList [] s = true := by
  cases s <;> simp [subList, List.isPrefixOf]

/-- The `search_books` loop builds exactly the filter of the library by the
membership test. -/
theorem search_books_eq_filter (term : String) (f : SearchField)
    (library : List Book) :
    search_books term f library = library.filter (searchHit term f) := by
  induction library with
  | nil => rfl
  | cons b rest ih =>
    by_cases hb : searchHit term f b <;>
      simp [search_books, hb, List.filter_cons, ih]

/-- C6: search returns exactly the ordered subsequence of records whose
chosen field contains the term as a case-insensitive substring, and the
empty term matches every record, so searching with it returns the whole
store. -/
theorem search_books_spec (term : String) (f : SearchField)
    (library : List Book) :
    search_books term f library = library.filter (searchHit term f)
    ∧ (∀ b : Book, searchHit term f b = true ↔
        ∃ pre post : List Char,
          (pyLower (fieldOf f b)).data = pre ++ (pyLower term).data ++ post)
    ∧ search_books "" f library = library := by
  refine ⟨search_books_eq_filter term f library, fun b => ?_, ?_⟩
  · exact subList_iff_exists
  · rw [search_books_eq_filter]
    apply List.filter_eq_self.mpr
    intro b _
    have h0 : (pyLower "").data = [] := rfl
    show subList (pyLower "").data (pyLower (fieldOf f b)).data = true
    rw [h0]
    exact subList_nil_left _

/-- C7: the statistics are the record count, the read count, their
difference, and the guarded percentage; the empty store yields all zeros
with no division. -/
theorem calculate_statistics_spec (library : List Book) :
    (calculate_statistics library).total_books = library.length
    ∧ (calculate_statistics library).read_books =
        List.countP (fun b => b.read_status) library
    ∧ (calculate_statistics library).read_books ≤
        (calculate_statistics library).total_books
    ∧ (calculate_statistics library).read_books +
        (calculate_statistics library).unread_books =
        (calculate_statistics library).total_books
    ∧ (0 < library.length →
        (calculate_statistics library).read_percentage =
          (List.countP (fun b => b.read_status) library : ℚ) /
            (library.length : ℚ) * 100)
    ∧ (library.length = 0 →
        (calculate_statistics library).read_percentage = 0)
    ∧ calculate_statistics [] =
        { total_books := 0, read_books := 0, unread_books := 0,
          read_percentage := 0 } := by
  refine ⟨rfl, rfl, ?_, ?_, ?_, ?_, rfl⟩
  · exact List.countP_le_length _
  · exact Nat.add_sub_cancel' (List.countP_le_length _)
  · intro h
    simp [calculate_statistics, h]
  · intro h
    simp [calculate_statistics, h]

/-- Witness for C7's guarded percentage at the spec's two-record scenario. -/
theorem calculate_statistics_spec_witness :
    0 < ([duneB, emmaB] : List Book).length
    ∧ (calculate_statistics [duneB, emmaB]).read_percentage =
        (List.countP (fun b => b.read_status) [duneB, emmaB] : ℚ) /
          (([duneB, emmaB] : List Book).length : ℚ) * 100 :=
  ⟨by decide,
   (calculate_statistics_spec [duneB, emmaB]).2.2.2.2.1 (by decide)⟩

/-- C8: the View-All-Books display sort returns a new sequence (a
permutation of the store) and leaves the underlying session store
unchanged, for every sort key and toggle setting. -/
theorem viewAllBooks_frame (sort_by : SortChoice) (reverse_sort : Bool)
    (library : List Book) :
    (viewAllBooks sort_by reverse_sort library).1 = library
    ∧ ((viewAllBooks sort_by reverse_sort library).2).Perm library := by
  refine ⟨rfl, ?_⟩
  cases sort_by <;> exact pySort_perm _ _ _

/-- C9: the display sort compares title and author case-insensitively (by
the lowercased key), added_date and year by natural order, in both toggle
directions, and is stable: records whose keys tie keep their original
relative order. -/
theorem viewAllSorted_keys_stable (library : List Book) :
    (List.Sorted (keyLe titleKey)
        (viewAllSorted SortChoice.title false library)
      ∧ List.Sorted (keyGe titleKey)
        (viewAllSorted SortChoice.title true library))
    ∧ (List.Sorted (keyLe authorKey)
        (viewAllSorted SortChoice.author false library)
      ∧ List.Sorted (keyGe authorKey)
        (viewAllSorted SortChoice.author true library))
    ∧ (List.Sorted (keyLe yearKey)
        (viewAllSorted SortChoice.year false library)
      ∧ List.Sorted (keyGe yearKey)
        (viewAllSorted SortChoice.year true library))
    ∧ (List.Sorted (keyGe addedDateKey)
        (viewAllSorted SortChoice.recentlyAdded false library)
      ∧ List.Sorted (keyLe addedDateKey)
        (viewAllSorted SortChoice.recentlyAdded true library))
    ∧ (∀ (reverse_sort : Bool) (y : Nat),
        (viewAllSorted SortChoice.year reverse_sort library).filter
            (fun b => decide (yearKey b = y)) =
          library.filter (fun b => decide (yearKey b = y)))
    ∧ (∀ (reverse_sort : Bool) (t : List Char),
        (viewAllSorted SortChoice.title reverse_sort library).filter
            (fun b => decide (titleKey b = t)) =
          library.filter (fun b => decide (titleKey b = t)))
    ∧ (∀ (reverse_sort : Bool) (a : List Char),
        (viewAllSorted SortChoice.author reverse_sort library).filter
            (fun b => decide (authorKey b = a)) =
          library.filter (fun b => decide (authorKey b = a)))
    ∧ (∀ (reverse_sort : Bool) (d : List Char),
        (viewAllSorted SortChoice.recentlyAdded reverse_sort library).filter
            (fun b => decide (addedDateKey b = d)) =
          library.filter (fun b => decide (addedDateKey b = d))) := by
  refine ⟨⟨?_, ?_⟩, ⟨?_, ?_⟩, ⟨?_, ?_⟩, ⟨?_, ?_⟩, ?_, ?_, ?_, ?_⟩
  · exact pySort_sorted_asc titleKey library
  · exact pySort_sorted_desc titleKey library
  · exact pySort_sorted_asc authorKey library
  · exact pySort_sorted_desc authorKey library
  · exact pySort_sorted_asc yearKey library
  · exact pySort_sorted_desc yearKey library
  · exact pySort_sorted_desc addedDateKey library
  · exact pySort_sorted_asc addedDateKey library
  · exact fun reverse_sort y => pySort_filter_key yearKey reverse_sort library y
  · exact fun reverse_sort t => pySort_filter_key titleKey reverse_sort library t
  · exact fun reverse_sort a => pySort_filter_key authorKey reverse_sort library a
  · exact fun reverse_sort d =>
      pySort_filter_key addedDateKey (!reverse_sort) library d

end LibraryManager
